import Mathlib

/-!
Verification of the conversational control logic of the AI-Zoo Discord bot
(`bots/base_bot.py`): conversation store, cooldown state machine,
response orchestration, persona/system-prompt composition and the
introduction-message renderer, shallowly embedded in Lean 4.

Python `asyncio` scheduling is modelled by an explicit event step function:
an inbound message event carries the values the handler samples at run time
(the `random.randint(1, 3)` draw, the event-loop clock, the
`should_respond_to_message` hook result), and the deferred
`reset_cooldown_after` task is modelled by a pending-timer counter plus a
timer-fire event.
-/

/-! ## String helpers (kernel-evaluable replacements for Python `str` ops) -/

/-- Python `haystack.startswith(needle)`, computed on the character lists. -/
def strStartsWith (hay needle : String) : Bool :=
  needle.data.isPrefixOf hay.data

/-- Substring occurrence on character lists: Python `needle in hay`. -/
def listContainsSub (hay needle : List Char) : Bool :=
  match hay with
  | [] => needle.isEmpty
  | _ :: t => needle.isPrefixOf hay || listContainsSub t needle

/-- Python `needle in hay` for strings. -/
def strContainsSub (hay needle : String) : Bool :=
  listContainsSub hay.data needle.data

/-- Python `str.lower()` restricted to ASCII letters (the markers compared
against are ASCII). -/
def pyLowerChar (c : Char) : Char :=
  if 65 ≤ c.toNat && c.toNat ≤ 90 then Char.ofNat (c.toNat + 32) else c

/-- Python `s.lower()`. -/
def pyLower (s : String) : String :=
  String.mk (s.data.map pyLowerChar)

/-! ## Data model -/

/-- One recorded utterance of the conversation history. -/
structure Utterance where
  author : String
  content : String
  isBotReply : Bool
deriving DecidableEq, Repr

/-- Modelled from the spec: the ConversationStore component
(`utils/conversation.py`, class `ConversationManager`, is not under `src/`;
only its callers in `bots/base_bot.py` are).  Spec §3/§4.1: an ordered
sequence of utterances plus a turn counter. -/
structure ConversationStore where
  messages : List Utterance
  turns : Nat
deriving DecidableEq, Repr

/-- Modelled from the spec: `add(author, content, is_bot_reply)` appends an
utterance and increments the turn counter only when the utterance is not a
bot reply; always succeeds. -/
def ConversationStore.add_message (s : ConversationStore)
    (author content : String) (isBotReply : Bool) : ConversationStore :=
  { messages := s.messages ++ [{ author := author, content := content,
                                 isBotReply := isBotReply }],
    turns := if isBotReply then s.turns else s.turns + 1 }

/-- Modelled from the spec: `turn_count()`. -/
def ConversationStore.turn_count (s : ConversationStore) : Nat :=
  s.turns

/-- Modelled from the spec: `should_cool_down(max_turns)` is true iff
`turn_count() >= max_turns`. -/
def ConversationStore.should_cool_down (s : ConversationStore)
    (maxTurns : Nat) : Bool :=
  maxTurns ≤ s.turns

/-- Modelled from the spec: `reset_turns()` zeroes the counter and keeps the
stored utterances. -/
def ConversationStore.reset_conversation_turns
    (s : ConversationStore) : ConversationStore :=
  { s with turns := 0 }

/-- A role-tagged message for an LLM backend. -/
structure RoleMsg where
  role : String
  content : String
deriving DecidableEq, Repr

/-- Modelled from the spec: `format_for_backend` in the OpenAI dialect —
system prompt first, then each utterance with role `assistant` when it was
the bot's own reply, else `user`, in chronological order. -/
def ConversationStore.format_for_openai (s : ConversationStore)
    (systemPrompt : String) : List RoleMsg :=
  { role := "system", content := systemPrompt } ::
    s.messages.map (fun u =>
      { role := if u.isBotReply then "assistant" else "user",
        content := u.content })

/-- Wire shape of the Anthropic dialect: the system prompt travels beside the
message list. -/
structure AnthropicPayload where
  system : String
  messages : List RoleMsg
deriving DecidableEq, Repr

/-- Modelled from the spec: `format_for_backend` in the Anthropic dialect —
same content and order, only the wire shape differs. -/
def ConversationStore.format_for_anthropic (s : ConversationStore)
    (systemPrompt : String) : AnthropicPayload :=
  { system := systemPrompt,
    messages := s.messages.map (fun u =>
      { role := if u.isBotReply then "assistant" else "user",
        content := u.content }) }

/-- An inbound Discord message event as seen by `on_message`. -/
structure Message where
  fromSelf : Bool
  channelId : Nat
  authorDisplayName : String
  content : String
deriving DecidableEq, Repr

/-- The bot configuration read from the environment in `__init__`.
`commandMarker` embeds the `command_prefix` constructor argument. -/
structure BotConfig where
  channel_id : Nat
  commandMarker : String
  max_conversation_turns : Nat
deriving DecidableEq, Repr

/-- The mutable bot state touched by the message handler: the conversation
store, the cooldown flag and deadline, and the number of outstanding
`reset_cooldown_after` tasks (modelling `asyncio.create_task`). -/
structure BotState where
  store : ConversationStore
  in_cooldown : Bool
  cooldown_until : Nat
  pendingResets : Nat
deriving DecidableEq, Repr

/-- Initial state set in `__init__`: empty history, not cooling down. -/
def initBotState : BotState :=
  { store := { messages := [], turns := 0 },
    in_cooldown := false, cooldown_until := 0, pendingResets := 0 }

/-- Outcome tag describing which exit path `on_message` took. -/
inductive MsgOutcome where
  | ignoredSelf
  | ignoredChannel
  | ignoredCommand
  | ignoredCooldown
  | enteredCooldown (minutes : Nat)
  | respondScheduled
  | hookDeclined
deriving DecidableEq, Repr

/-- The `on_message` handler of `bots/base_bot.py` (lines 117-161).
`now` is `asyncio.get_event_loop().time()`, `r` the `random.randint(1, 3)`
draw, `hook` the `should_respond_to_message` result.  The guard order is the
source's: self-filter, channel filter (disabled when `channel_id` is 0),
`process_commands` (no handler state change), command-prefix early return,
cooldown early return, `add_message`, cooldown trigger, eligibility hook. -/
def on_message (cfg : BotConfig) (st : BotState) (m : Message)
    (now r : Nat) (hook : Bool) : BotState × MsgOutcome :=
  if m.fromSelf then (st, .ignoredSelf)
  else if cfg.channel_id ≠ 0 ∧ m.channelId ≠ cfg.channel_id then
    (st, .ignoredChannel)
  else if strStartsWith m.content cfg.commandMarker then (st, .ignoredCommand)
  else if st.in_cooldown then (st, .ignoredCooldown)
  else
    let store := st.store.add_message m.authorDisplayName m.content false
    if store.should_cool_down cfg.max_conversation_turns then
      ({ store := store.reset_conversation_turns,
         in_cooldown := true,
         cooldown_until := now + r * 60,
         pendingResets := st.pendingResets + 1 }, .enteredCooldown r)
    else if hook then ({ st with store := store }, .respondScheduled)
    else ({ st with store := store }, .hookDeclined)

/-- Effect of one `reset_cooldown_after` task firing after its sleep
(lines 300-310): unconditionally clears the cooldown flag. -/
def reset_cooldown_fire (st : BotState) : BotState :=
  { st with in_cooldown := false, pendingResets := st.pendingResets - 1 }

/-! ## Event system for reachability -/

/-- A scheduler event: an inbound message (with its sampled randomness,
clock reading and hook result) or an outstanding cooldown timer firing. -/
inductive Event where
  | inbound (m : Message) (now r : Nat) (hook : Bool)
  | timerFire
deriving Repr

/-- One scheduler step; `none` when the event is not enabled (a timer can
fire only while one is outstanding). -/
def step (cfg : BotConfig) (st : BotState) : Event → Option BotState
  | .inbound m now r hook => some (on_message cfg st m now r hook).1
  | .timerFire =>
      if 0 < st.pendingResets then some (reset_cooldown_fire st) else none

/-- States reachable from the initial state under `step`. -/
inductive Reachable (cfg : BotConfig) : BotState → Prop
  | init : Reachable cfg initBotState
  | next {s s' : BotState} {e : Event} :
      Reachable cfg s → step cfg s e = some s' → Reachable cfg s'

/-! ## Persona composition -/

/-- Interests may come from the persona service as a list or a scalar
(`generate_introduction_message`, lines 333-339). -/
inductive InterestsVal where
  | list (xs : List String)
  | scalar (s : String)
deriving DecidableEq, Repr

/-- Character settings dictionary; `none` marks a key absent from the dict. -/
structure Character where
  name : Option String
  personality : Option String
  speaking_style : Option String
  language : Option String
  model : Option String
  interests : Option InterestsVal
  background : Option String
deriving DecidableEq, Repr

/-- The fixed fallback character dict written in both failure branches of
`load_character_settings` (lines 187-193 and 212-218). -/
def default_character (notionName : String) : Character :=
  { name := some notionName,
    personality := some "Friendly and helpful",
    speaking_style := some "Casual and conversational",
    language := some "English",
    model := some "gpt-4",
    interests := none,
    background := none }

/-- The automated-peer display-name markers of
`_adjust_system_prompt_for_sender` (line 285). -/
def bot_names : List String :=
  ["gpt-4o-animal", "claude-animal", "gpt-4o", "claude"]

/-- The static situational instruction block appended for automated peers
(lines 288-295), byte-for-byte the Python triple-quoted string. -/
def bot_response_guidance : String :=
  "\n            \n現在、あなたは他のAIボットからの質問に応答しています。以下のガイドラインに従ってください：\n1. 「ご指摘の通りですね」「おっしゃる通りです」などの同意から始めないでください\n2. 質問に直接答え、相手の発言内容を先に知っていたかのような表現は避けてください\n3. 自分の考えや意見を述べる際は、「私は〜と考えます」「私の見解では〜」などの表現を使ってください\n4. 会話の自然な流れを維持しつつ、不自然な「先読み」を避けてください\n"

/-- `_adjust_system_prompt_for_sender` (lines 271-298): appends the
situational block when some marker occurs case-insensitively in the sender
display name, else returns the prompt unchanged. -/
def adjust_system_prompt_for_sender (systemPrompt senderName : String) :
    String :=
  if bot_names.any (fun b => strContainsSub (pyLower senderName) (pyLower b))
  then systemPrompt ++ bot_response_guidance
  else systemPrompt

/-! ## load_character_settings -/

/-- Result of `load_character_settings`: the character dict, the composed
system prompt, and whether a fallback substitution was logged. -/
structure LoadResult where
  character : Character
  system_prompt : String
  loggedFallback : Bool
deriving DecidableEq, Repr

/-- Outcome of the Notion persona lookup as observed inside the `try` block:
`.error` models `get_character` (or the subsequent prompt formatting)
raising, `.ok none` models a Falsy result (absent or empty), `.ok (some c)`
a found character. -/
def NotionLookup : Type := Except Unit (Option Character)

/-- Modelled from the spec: `format_character_prompt` lives in
`services/notion_service.py`, which is not under `src/`.  Spec §4.3
`build_system_prompt`: concatenate the base role text with a rendering of
the persona fields; when the base role text is unavailable, fall back to a
minimal one-line instruction referencing the persona identity. -/
def format_character_prompt (c : Character) (baseRole : String) : String :=
  let rendering := "You are " ++ (c.name.getD "") ++ ".\n"
    ++ "Personality: " ++ (c.personality.getD "") ++ "\n"
    ++ "Speaking style: " ++ (c.speaking_style.getD "")
  if baseRole = "" then rendering else baseRole ++ "\n\n" ++ rendering

/-- `load_character_settings` (lines 177-223).  On a raised exception the
`except` branch installs the default character and composes the prompt from
the base role directly; on a Falsy lookup result the default character is
installed with a logged warning and the prompt is composed by
`format_character_prompt`; on success the found character is used. -/
def load_character_settings (notionName baseRole : String)
    (lookup : NotionLookup) : LoadResult :=
  match lookup with
  | .error _ =>
      { character := default_character notionName,
        system_prompt :=
          if baseRole = "" then
            "You are " ++ notionName ++ ". Be friendly and helpful."
          else "You are " ++ notionName ++ ".\n\n" ++ baseRole,
        loggedFallback := true }
  | .ok none =>
      { character := default_character notionName,
        system_prompt :=
          format_character_prompt (default_character notionName) baseRole,
        loggedFallback := true }
  | .ok (some c) =>
      { character := c,
        system_prompt := format_character_prompt c baseRole,
        loggedFallback := false }

/-! ## respond_to_message -/

/-- Observable outcome of one `respond_to_message` task: the store after the
attempt, the message delivered to the channel if any, and whether the
failure branch logged an error.  The function is total: the `try/except`
of lines 232-269 never lets an exception propagate. -/
structure RespondResult where
  store : ConversationStore
  sent : Option String
  errorLogged : Bool
deriving DecidableEq, Repr

/-- `respond_to_message` (lines 225-269).  `llmResult` is the outcome of the
`llm_service.generate_response` call (`.error` models it raising).  The
model is taken from the character dict with default `"gpt-4"`; the system
prompt is adjusted for the sender; the history is formatted in the dialect
chosen by the model name; on LLM success the reply is appended to the store
as a bot reply and sent; on failure the exception is caught and logged and
nothing else happens. -/
def respond_to_message (character : Option Character)
    (systemPrompt senderName botName : String) (store : ConversationStore)
    (llmResult : Except String String) : RespondResult :=
  let model := match character with
    | some c => c.model.getD "gpt-4"
    | none => "gpt-4"
  let adjusted := adjust_system_prompt_for_sender systemPrompt senderName
  let _msgs : List RoleMsg ⊕ AnthropicPayload :=
    if strStartsWith model "gpt" then .inl (store.format_for_openai adjusted)
    else .inr (store.format_for_anthropic adjusted)
  match llmResult with
  | .error _ => { store := store, sent := none, errorLogged := true }
  | .ok resp =>
      { store := store.add_message botName resp true,
        sent := some resp, errorLogged := false }

/-! ## Introduction message -/

/-- Flattening of the `interests` field (lines 334-338): a list is joined
with the enumeration comma, a scalar is used as-is. -/
def interestsToString : InterestsVal → String
  | .list xs => String.intercalate "、" xs
  | .scalar s => s

/-- The Python-truthiness test applied to `additional_info` (line 351):
`None` and the empty string are Falsy. -/
def optStrTruthy : Option String → Bool
  | none => false
  | some s => s ≠ ""

/-- The `intro_parts` list built by `generate_introduction_message`
(lines 312-357), translated clause by clause: greeting, then one line per
present character field, then the subclass extra info when truthy, then the
fixed invitation. -/
def introParts (characterName : String) (character : Option Character)
    (additionalInfo : Option String) : List String :=
  let parts := ["こんにちは！私は" ++ characterName ++ "です。"]
  let parts := match character with
    | some c => match c.personality with
      | some p => parts ++ ["性格: " ++ p]
      | none => parts
    | none => parts
  let parts := match character with
    | some c => match c.speaking_style with
      | some v => parts ++ ["話し方: " ++ v]
      | none => parts
    | none => parts
  let parts := match character with
    | some c => match c.interests with
      | some iv => parts ++ ["興味・関心: " ++ interestsToString iv]
      | none => parts
    | none => parts
  let parts := match character with
    | some c => match c.background with
      | some b => parts ++ ["背景: " ++ b]
      | none => parts
    | none => parts
  let parts := match character with
    | some c => match c.model with
      | some v => parts ++ ["使用モデル: " ++ v]
      | none => parts
    | none => parts
  let parts := match additionalInfo with
    | some s => if s = "" then parts else parts ++ [s]
    | none => parts
  parts ++ ["気軽に話しかけてください！"]

/-- `generate_introduction_message` (lines 312-357): the parts joined with
newlines. -/
def generate_introduction_message (characterName : String)
    (character : Option Character) (additionalInfo : Option String) :
    String :=
  String.intercalate "\n" (introParts characterName character additionalInfo)

/-! ## on_ready and channel configuration -/

/-- Decimal digit value of a character, `none` for non-digits. -/
def digitVal (c : Char) : Option Nat :=
  if 48 ≤ c.toNat && c.toNat ≤ 57 then some (c.toNat - 48) else none

/-- Accumulating decimal parse of a character list; `none` on any
non-digit. -/
def parseDecAux (acc : Nat) : List Char → Option Nat
  | [] => some acc
  | c :: t => match digitVal c with
    | some d => parseDecAux (acc * 10 + d) t
    | none => none

/-- Python `int(s)` for a plain nonnegative decimal literal (the only shape
relevant to a channel id); `none` when the Python call would raise. -/
def pyIntNat (s : String) : Option Nat :=
  match s.data with
  | [] => none
  | l => parseDecAux 0 l

/-- Line 53: `int` of `os.environ.get` applied to the CHANNEL_ID key with
default string `"0"`.  `none` when the Python `int` call would raise on the
value. -/
def channel_id_of_env (env : Option String) : Option Nat :=
  pyIntNat (env.getD "0")

/-- Observable effect of `on_ready` (lines 98-115): the introduction message
sent, if any.  The introduction is generated and sent only when
`channel_id` is truthy and the channel is found. -/
def on_ready_intro (channelId : Nat) (channelFound : Bool)
    (characterName : String) (character : Option Character)
    (additionalInfo : Option String) : Option String :=
  if channelId ≠ 0 then
    if channelFound then
      some (generate_introduction_message characterName character
        additionalInfo)
    else none
  else none

/-! ## Concrete instances used by witnesses and counterexamples -/

/-- A concrete configuration: channel 7, prefix `!`, cooldown after one
turn. -/
def cfgW : BotConfig :=
  { channel_id := 7, commandMarker := "!", max_conversation_turns := 1 }

/-- A concrete inbound conversational message on channel 7. -/
def msgW : Message :=
  { fromSelf := false, channelId := 7, authorDisplayName := "Alice",
    content := "hi" }

/-- A concrete inbound command message on channel 7. -/
def msgCmd : Message :=
  { fromSelf := false, channelId := 7, authorDisplayName := "Alice",
    content := "!help" }

/-- The state after `msgW` triggers the cooldown from the initial state. -/
def stateCooling : BotState :=
  (on_message cfgW initBotState msgW 100 2 true).1

/-- A concrete configuration with the channel filter disabled
(CHANNEL_ID absent or the string 0). -/
def cfgZ : BotConfig :=
  { channel_id := 0, commandMarker := "!", max_conversation_turns := 10 }

/-- A concrete message on an arbitrary other channel. -/
def msgZ : Message :=
  { fromSelf := false, channelId := 999, authorDisplayName := "Bob",
    content := "yo" }

/-- Conditionally rendered introduction line: one line with the given
label when the field is present, nothing when absent. -/
def optLine (pre : String) : Option String → List String
  | some v => [pre ++ v]
  | none => []

/-! ## Helper lemmas -/

lemma data_append_ne_nil (s t : String) (h : s.data ≠ []) :
    (s ++ t).data ≠ [] := by
  rw [String.data_append]
  simp [h]

lemma ne_empty_of_data_ne_nil (s : String) (h : s.data ≠ []) : s ≠ "" := by
  intro he
  subst he
  exact h rfl

lemma str_append_ne_empty (s t : String) (h : s.data ≠ []) : s ++ t ≠ "" :=
  ne_empty_of_data_ne_nil _ (data_append_ne_nil s t h)

lemma data_append_ne_nil_right (s t : String) (h : t.data ≠ []) :
    (s ++ t).data ≠ [] := by
  rw [String.data_append]
  simp [h]

lemma str_append_ne_empty_right (s t : String) (h : t.data ≠ []) :
    s ++ t ≠ "" :=
  ne_empty_of_data_ne_nil _ (data_append_ne_nil_right s t h)

/-- While cooling down, the handler changes nothing: every branch before the
`add_message` call returns the state untouched. -/
lemma on_message_cooldown_state (cfg : BotConfig) (st : BotState)
    (m : Message) (now r : Nat) (hook : Bool)
    (h : st.in_cooldown = true) :
    (on_message cfg st m now r hook).1 = st := by
  simp only [on_message]
  repeat' split <;> simp_all

/-- While cooling down, the handler never takes the cooldown-entry branch. -/
lemma on_message_cooldown_outcome (cfg : BotConfig) (st : BotState)
    (m : Message) (now r : Nat) (hook : Bool) (k : Nat)
    (h : st.in_cooldown = true) :
    (on_message cfg st m now r hook).2 ≠ .enteredCooldown k := by
  simp only [on_message]
  repeat' split <;> simp_all

/-- Case analysis of the handler on the cooldown bookkeeping fields: either
the state is returned untouched, or only the store changes, or the
cooldown-entry branch runs from a non-cooling state and schedules exactly
one timer. -/
lemma on_message_state_cases (cfg : BotConfig) (st : BotState) (m : Message)
    (now r : Nat) (hook : Bool) :
    (on_message cfg st m now r hook).1 = st ∨
    ((on_message cfg st m now r hook).1.in_cooldown = st.in_cooldown ∧
     (on_message cfg st m now r hook).1.pendingResets = st.pendingResets) ∨
    (st.in_cooldown = false ∧
     (on_message cfg st m now r hook).1.in_cooldown = true ∧
     (on_message cfg st m now r hook).1.pendingResets =
       st.pendingResets + 1) := by
  simp only [on_message]
  split
  · exact Or.inl rfl
  split
  · exact Or.inl rfl
  split
  · exact Or.inl rfl
  split
  · exact Or.inl rfl
  rename_i hcool
  split
  · refine Or.inr (Or.inr ⟨?_, rfl, rfl⟩)
    simpa using hcool
  split
  · exact Or.inr (Or.inl ⟨rfl, rfl⟩)
  · exact Or.inr (Or.inl ⟨rfl, rfl⟩)

/-- Invariant of the event system: the number of outstanding cooldown-reset
timers is 1 exactly while cooling down, 0 otherwise. -/
lemma reachable_pending_inv (cfg : BotConfig) (s : BotState)
    (h : Reachable cfg s) :
    s.pendingResets = (if s.in_cooldown then 1 else 0) := by
  induction h with
  | init => rfl
  | @next s₀ s₁ e hprev hstep ih =>
      cases e with
      | inbound m now r hook =>
          simp only [step, Option.some_inj] at hstep
          subst hstep
          rcases on_message_state_cases cfg s₀ m now r hook with
            hc | ⟨hc1, hc2⟩ | ⟨hc1, hc2, hc3⟩
          · rw [hc]; exact ih
          · rw [hc1, hc2]; exact ih
          · rw [hc2, hc3, ih, hc1]
            simp
      | timerFire =>
          simp only [step] at hstep
          split at hstep
          · rename_i hpos
            simp only [Option.some_inj] at hstep
            subst hstep
            have hcool : s₀.in_cooldown = true := by
              by_contra hc
              rw [Bool.eq_false_iff.mpr hc] at ih
              simp at ih
              omega
            rw [hcool] at ih
            simp [reset_cooldown_fire, ih]
          · exact absurd hstep (by simp)

/-- `stateCooling` is reachable: the single message `msgW` triggers the
cooldown under `cfgW`. -/
lemma stateCooling_reachable : Reachable cfgW stateCooling :=
  @Reachable.next cfgW initBotState stateCooling
    (.inbound msgW 100 2 true) Reachable.init rfl

/-! ## Claim theorems -/

/-- C1 counterexample: in the reachable cooling-down state `stateCooling`,
the inbound non-self, in-channel, non-command message `msgW` is NOT
recorded by `add_message` — the handler returns before the store append, so
the store length stays 1 instead of growing to 2 as the claim requires. -/
theorem c1_counterexample :
    stateCooling.in_cooldown = true ∧
    msgW.fromSelf = false ∧
    msgW.channelId = cfgW.channel_id ∧
    strStartsWith msgW.content cfgW.commandMarker = false ∧
    (on_message cfgW stateCooling msgW 200 1 true).1.store.messages.length =
      stateCooling.store.messages.length ∧
    ¬((on_message cfgW stateCooling msgW 200 1 true).1.store.messages.length
        = stateCooling.store.messages.length + 1) := by
  decide

/-- C1 (amended): while the controller is cooling down, an inbound
non-self, in-channel, non-command message is never passed to response
generation, and it is NOT recorded in the ConversationStore either — the
handler returns, state untouched, before the `add_message` call. -/
theorem c1_cooldown_drops_message (cfg : BotConfig) (st : BotState)
    (m : Message) (now r : Nat) (hook : Bool)
    (hself : m.fromSelf = false)
    (hch : ¬(cfg.channel_id ≠ 0 ∧ m.channelId ≠ cfg.channel_id))
    (hcmd : strStartsWith m.content cfg.commandMarker = false)
    (hcool : st.in_cooldown = true) :
    on_message cfg st m now r hook = (st, .ignoredCooldown) := by
  simp [on_message, hself, hch, hcmd, hcool]

/-- C1 witness: the amended statement applied in the concrete reachable
cooling state. -/
theorem c1_witness :
    on_message cfgW stateCooling msgW 200 1 true =
      (stateCooling, .ignoredCooldown) :=
  c1_cooldown_drops_message cfgW stateCooling msgW 200 1 true
    (by decide) (by decide) (by decide) (by decide)

/-- C2: when an inbound non-self, in-channel, non-command message arrives
outside cooldown and the appended store reports `should_cool_down`, the
handler performs the single COOLING_DOWN transition: the message is
recorded, the turn counter is reset to zero, the cooldown flag is set, the
deadline is the current time plus the drawn minutes, exactly one deferred
reactivation is scheduled, its duration lies in the inclusive 1-3 minute
range drawn by `random.randint`, and the outcome is the cooldown entry —
never a response for that message. -/
theorem c2_cooldown_entry (cfg : BotConfig) (st : BotState) (m : Message)
    (now r : Nat) (hook : Bool)
    (hself : m.fromSelf = false)
    (hch : ¬(cfg.channel_id ≠ 0 ∧ m.channelId ≠ cfg.channel_id))
    (hcmd : strStartsWith m.content cfg.commandMarker = false)
    (hcool : st.in_cooldown = false)
    (htrig : (st.store.add_message m.authorDisplayName m.content
        false).should_cool_down cfg.max_conversation_turns = true)
    (hr1 : 1 ≤ r) (hr3 : r ≤ 3) :
    on_message cfg st m now r hook =
      ({ store := { messages := st.store.messages ++
                      [{ author := m.authorDisplayName,
                         content := m.content,
                         isBotReply := false }],
                    turns := 0 },
         in_cooldown := true,
         cooldown_until := now + r * 60,
         pendingResets := st.pendingResets + 1 }, .enteredCooldown r) ∧
    60 ≤ r * 60 ∧ r * 60 ≤ 180 := by
  refine ⟨?_, by omega, by omega⟩
  simp [ConversationStore.add_message] at htrig
  simp [on_message, hself, hch, hcmd, hcool, htrig,
    ConversationStore.add_message, ConversationStore.reset_conversation_turns]

/-- C2 witness: the first message under `cfgW` (max turns 1) triggers the
transition with a drawn duration of 2 minutes. -/
theorem c2_witness :
    on_message cfgW initBotState msgW 100 2 true =
      ({ store := { messages := [{ author := "Alice",
                                   content := "hi",
                                   isBotReply := false }],
                    turns := 0 },
         in_cooldown := true,
         cooldown_until := 100 + 2 * 60,
         pendingResets := 0 + 1 }, .enteredCooldown 2) ∧
    60 ≤ 2 * 60 ∧ 2 * 60 ≤ 180 :=
  c2_cooldown_entry cfgW initBotState msgW 100 2 true
    (by decide) (by decide) (by decide) (by decide) (by decide)
    (by decide) (by decide)

/-- C3: when the LLM backend call raises, `respond_to_message` catches the
exception: the store is returned unchanged, nothing is sent to the
channel, the failure is logged, and — the function being total with the
single backend outcome it consumed — nothing is retried and no exception
propagates. -/
theorem c3_llm_failure_safe (character : Option Character)
    (systemPrompt senderName botName e : String)
    (store : ConversationStore) :
    respond_to_message character systemPrompt senderName botName store
        (.error e) =
      { store := store, sent := none, errorLogged := true } := by
  rfl

/-- C5 counterexample: the command message `msgCmd` (content starting with
the `!` marker) is dropped by the handler before the store append, so the
store stays empty instead of recording it as the claim requires. -/
theorem c5_counterexample :
    strStartsWith msgCmd.content cfgW.commandMarker = true ∧
    (on_message cfgW initBotState msgCmd 50 1 true).2 = .ignoredCommand ∧
    (on_message cfgW initBotState msgCmd 50 1 true).1.store.messages.length
      = 0 ∧
    ¬((on_message cfgW initBotState msgCmd 50 1 true).1.store.messages
        = initBotState.store.messages ++
          [{ author := msgCmd.authorDisplayName, content := msgCmd.content,
             isBotReply := false }]) := by
  decide

/-- C5 (amended): an inbound non-self, in-channel message whose content
starts with the command prefix is never treated as a conversational turn —
no response is generated for it — and it is NOT appended to the
ConversationStore: the handler returns, state untouched, right after
command processing. -/
theorem c5_command_not_recorded (cfg : BotConfig) (st : BotState)
    (m : Message) (now r : Nat) (hook : Bool)
    (hself : m.fromSelf = false)
    (hch : ¬(cfg.channel_id ≠ 0 ∧ m.channelId ≠ cfg.channel_id))
    (hcmd : strStartsWith m.content cfg.commandMarker = true) :
    on_message cfg st m now r hook = (st, .ignoredCommand) := by
  simp [on_message, hself, hch, hcmd]

/-- C5 witness: the amended statement at the concrete command message. -/
theorem c5_witness :
    on_message cfgW initBotState msgCmd 50 1 true =
      (initBotState, .ignoredCommand) :=
  c5_command_not_recorded cfgW initBotState msgCmd 50 1 true
    (by decide) (by decide) (by decide)

/-- C4: the COOLING_DOWN to ACTIVE transition is exactly the firing of the
scheduled reset task: whenever a reset task is outstanding it fires
unconditionally (whatever the store holds, so however many messages arrived
during the cooldown) and clears the cooldown flag; an inbound message
processed mid-cooldown leaves the entire state — in particular the cooldown
deadline and the outstanding timer — untouched; and no event other than the
timer firing ever moves the controller out of COOLING_DOWN. -/
theorem c4_cooldown_exit_iff_timer (cfg : BotConfig) (st : BotState)
    (m : Message) (now r : Nat) (hook : Bool) :
    (0 < st.pendingResets →
      step cfg st .timerFire =
        some { st with in_cooldown := false,
                       pendingResets := st.pendingResets - 1 }) ∧
    ((step cfg st .timerFire).elim True (fun s => s.in_cooldown = false)) ∧
    (st.in_cooldown = true → (on_message cfg st m now r hook).1 = st) ∧
    (∀ e s', step cfg st e = some s' → st.in_cooldown = true →
      s'.in_cooldown = false → e = .timerFire) := by
  refine ⟨fun h => by simp [step, h, reset_cooldown_fire], ?_, ?_, ?_⟩
  · simp only [step]
    split
    · simp [reset_cooldown_fire]
    · simp
  · exact fun h => on_message_cooldown_state cfg st m now r hook h
  · intro e s' hstep hcool hexit
    cases e with
    | inbound m2 now2 r2 hook2 =>
        simp only [step, Option.some_inj] at hstep
        rw [← hstep, on_message_cooldown_state cfg st m2 now2 r2 hook2 hcool]
          at hexit
        rw [hcool] at hexit
        exact absurd hexit (by simp)
    | timerFire => rfl

/-- C4 witness: in the concrete reachable cooling state, the timer fires
and clears the flag, and a mid-cooldown message leaves the state
untouched. -/
theorem c4_witness :
    step cfgW stateCooling .timerFire =
      some { stateCooling with
               in_cooldown := false,
               pendingResets := stateCooling.pendingResets - 1 } ∧
    (on_message cfgW stateCooling msgW 200 1 true).1 = stateCooling :=
  ⟨(c4_cooldown_exit_iff_timer cfgW stateCooling msgW 200 1 true).1
      (by decide),
   (c4_cooldown_exit_iff_timer cfgW stateCooling msgW 200 1 true).2.2.1
      (by decide)⟩

/-- C6: the system prompt is adjusted for a sender exactly when the sender
display name case-insensitively contains one of the configured marker
strings, and the adjustment appends the one fixed static guidance block;
otherwise the prompt is returned unchanged.  Sender Claude-Animal-42
receives the block, sender Alice does not. -/
theorem c6_adjust_for_sender (p s : String) :
    (bot_names.any
        (fun b => strContainsSub (pyLower s) (pyLower b)) = true →
      adjust_system_prompt_for_sender p s = p ++ bot_response_guidance) ∧
    (bot_names.any
        (fun b => strContainsSub (pyLower s) (pyLower b)) = false →
      adjust_system_prompt_for_sender p s = p) ∧
    adjust_system_prompt_for_sender p "Claude-Animal-42" =
      p ++ bot_response_guidance ∧
    adjust_system_prompt_for_sender p "Alice" = p ∧
    bot_response_guidance ≠ "" := by
  refine ⟨fun h => ?_, fun h => ?_, ?_, ?_, by decide⟩
  · simp [adjust_system_prompt_for_sender, h]
  · simp [adjust_system_prompt_for_sender, h]
  · have h : bot_names.any (fun b =>
        strContainsSub (pyLower "Claude-Animal-42") (pyLower b)) = true := by
      decide
    simp [adjust_system_prompt_for_sender, h]
  · have h : bot_names.any (fun b =>
        strContainsSub (pyLower "Alice") (pyLower b)) = false := by
      decide
    simp [adjust_system_prompt_for_sender, h]

/-- C6 witness: the marker-containing sender at a concrete prompt. -/
theorem c6_witness :
    adjust_system_prompt_for_sender "BASE" "Claude-Animal-42" =
      "BASE" ++ bot_response_guidance :=
  (c6_adjust_for_sender "BASE" "Claude-Animal-42").1 (by decide)

/-- C7: `load_character_settings` is total (the embedding of its
`try/except` is a function, so it never raises) and for every lookup
outcome yields a usable result: on a raised exception or an absent/empty
lookup the character is the fixed default (friendly personality, casual
style, English, model gpt-4) and the substitution is logged, and in every
case the composed system prompt is a non-empty string. -/
theorem c7_load_character_settings (notionName baseRole : String)
    (c : Character) :
    (load_character_settings notionName baseRole (.error ())).character =
      default_character notionName ∧
    (load_character_settings notionName baseRole (.error ())).loggedFallback
      = true ∧
    (load_character_settings notionName baseRole (.ok none)).character =
      default_character notionName ∧
    (load_character_settings notionName baseRole (.ok none)).loggedFallback
      = true ∧
    (load_character_settings notionName baseRole
        (.ok (some c))).loggedFallback = false ∧
    (default_character notionName).personality =
      some "Friendly and helpful" ∧
    (default_character notionName).speaking_style =
      some "Casual and conversational" ∧
    (default_character notionName).language = some "English" ∧
    (default_character notionName).model = some "gpt-4" ∧
    (load_character_settings notionName baseRole
        (.error ())).system_prompt ≠ "" ∧
    (load_character_settings notionName baseRole
        (.ok none)).system_prompt ≠ "" ∧
    (load_character_settings notionName baseRole
        (.ok (some c))).system_prompt ≠ "" := by
  refine ⟨rfl, rfl, rfl, rfl, rfl, rfl, rfl, rfl, rfl, ?_, ?_, ?_⟩ <;>
    simp only [load_character_settings, format_character_prompt] <;>
    split <;>
    first
      | exact str_append_ne_empty_right _ _ (by decide)
      | exact str_append_ne_empty _ _
          (data_append_ne_nil_right _ _ (by decide))

/-- Members of a conditionally rendered introduction line are non-empty
whenever the label is non-empty. -/
lemma mem_optLine_ne_empty (pre : String) (hp : pre.data ≠ [])
    (v : Option String) (s : String) (hs : s ∈ optLine pre v) : s ≠ "" := by
  cases v with
  | none => simp [optLine] at hs
  | some x =>
      simp [optLine] at hs
      subst hs
      exact str_append_ne_empty _ _ hp

/-- Members of the truthy-gated extra-info line are non-empty. -/
lemma mem_aiLine_ne_empty (ai : Option String) (s : String)
    (hs : s ∈ (if optStrTruthy ai then [ai.getD ""] else [])) : s ≠ "" := by
  rcases ai with _ | x
  · simp [optStrTruthy] at hs
  · by_cases hx : x = ""
    · simp [optStrTruthy, hx] at hs
    · simp [optStrTruthy, hx] at hs
      subst hs
      exact hx

/-- C8: from every reachable state, at most one cooldown-reset timer is
outstanding, and while one is pending (the controller cooling down) an
inbound message can neither schedule another timer nor reach the
cooldown-entry branch at all. -/
theorem c8_single_timer (cfg : BotConfig) (s : BotState)
    (h : Reachable cfg s) :
    s.pendingResets ≤ 1 ∧
    (s.in_cooldown = true → ∀ m now r hook k,
      (on_message cfg s m now r hook).1.pendingResets = s.pendingResets ∧
      (on_message cfg s m now r hook).2 ≠ .enteredCooldown k) := by
  have hinv := reachable_pending_inv cfg s h
  constructor
  · rw [hinv]
    split <;> omega
  · intro hc m now r hook k
    exact ⟨by rw [on_message_cooldown_state cfg s m now r hook hc],
           on_message_cooldown_outcome cfg s m now r hook k hc⟩

/-- C8 witness: in the concrete reachable cooling state the timer count is
at most one and a further message schedules nothing. -/
theorem c8_witness :
    stateCooling.pendingResets ≤ 1 ∧
    (on_message cfgW stateCooling msgW 200 1 true).1.pendingResets =
      stateCooling.pendingResets ∧
    (on_message cfgW stateCooling msgW 200 1 true).2 ≠
      .enteredCooldown 1 := by
  have h := c8_single_timer cfgW stateCooling stateCooling_reachable
  exact ⟨h.1, (h.2 (by decide) msgW 200 1 true 1).1,
         (h.2 (by decide) msgW 200 1 true 1).2⟩

/-- C9: the introduction is the newline-join of a parts list that starts
with the greeting line carrying the display name, ends with the fixed
invitation line, contains one line per present persona field (a list of
interests flattened into an enumeration-joined string) plus the truthy
extra-info line, and has no empty element — so omitted fields never
produce blank lines. -/
theorem c9_introduction_message (cn : String) (ch : Option Character)
    (ai : Option String) :
    introParts cn ch ai =
      ["こんにちは！私は" ++ cn ++ "です。"]
        ++ optLine "性格: " (ch.bind Character.personality)
        ++ optLine "話し方: " (ch.bind Character.speaking_style)
        ++ optLine "興味・関心: "
            ((ch.bind Character.interests).map interestsToString)
        ++ optLine "背景: " (ch.bind Character.background)
        ++ optLine "使用モデル: " (ch.bind Character.model)
        ++ (if optStrTruthy ai then [ai.getD ""] else [])
        ++ ["気軽に話しかけてください！"] ∧
    generate_introduction_message cn ch ai =
      String.intercalate "\n" (introParts cn ch ai) ∧
    (introParts cn ch ai).head? =
      some ("こんにちは！私は" ++ cn ++ "です。") ∧
    (introParts cn ch ai).getLast? = some "気軽に話しかけてください！" ∧
    (∀ s, s ∈ introParts cn ch ai → s ≠ "") := by
  have h1 : introParts cn ch ai =
      ["こんにちは！私は" ++ cn ++ "です。"]
        ++ optLine "性格: " (ch.bind Character.personality)
        ++ optLine "話し方: " (ch.bind Character.speaking_style)
        ++ optLine "興味・関心: "
            ((ch.bind Character.interests).map interestsToString)
        ++ optLine "背景: " (ch.bind Character.background)
        ++ optLine "使用モデル: " (ch.bind Character.model)
        ++ (if optStrTruthy ai then [ai.getD ""] else [])
        ++ ["気軽に話しかけてください！"] := by
    rcases ch with _ | c
    · rcases ai with _ | s
      · simp [introParts, optLine, optStrTruthy]
      · by_cases hs : s = "" <;>
          simp [introParts, optLine, optStrTruthy, hs]
    · obtain ⟨nm, pe, sp, la, mo, it, bg⟩ := c
      rcases ai with _ | s
      · cases pe <;> cases sp <;> cases it <;> cases bg <;> cases mo <;>
          simp [introParts, optLine, optStrTruthy]
      · by_cases hs : s = "" <;>
          cases pe <;> cases sp <;> cases it <;> cases bg <;> cases mo <;>
          simp [introParts, optLine, optStrTruthy, hs]
  refine ⟨h1, rfl, ?_, ?_, ?_⟩
  · rw [h1]
    rfl
  · rw [h1]
    exact List.getLast?_concat _
  · rw [h1]
    intro s hs
    simp only [List.append_assoc, List.mem_append, List.mem_singleton]
      at hs
    rcases hs with h | h | h | h | h | h | h | h
    · subst h
      exact str_append_ne_empty_right _ _ (by decide)
    · exact mem_optLine_ne_empty _ (by decide) _ _ h
    · exact mem_optLine_ne_empty _ (by decide) _ _ h
    · exact mem_optLine_ne_empty _ (by decide) _ _ h
    · exact mem_optLine_ne_empty _ (by decide) _ _ h
    · exact mem_optLine_ne_empty _ (by decide) _ _ h
    · exact mem_aiLine_ne_empty _ _ h
    · subst h
      decide

/-- C9 witness: the fallback character yields a concrete parts list whose
personality line is non-empty and whose last line is the invitation. -/
theorem c9_witness :
    ("性格: Friendly and helpful" : String) ≠ "" ∧
    (introParts "Zoo" (some (default_character "Zoo")) none).getLast? =
      some "気軽に話しかけてください！" := by
  have h := c9_introduction_message "Zoo" (some (default_character "Zoo"))
    none
  exact ⟨h.2.2.2.2 _ (by decide), h.2.2.2.1⟩

/-- C10: with CHANNEL_ID absent or the string 0, the parsed channel id is
0; then the channel filter never fires (messages from every channel are
processed as conversational turns: any non-self, non-command message
outside cooldown is appended to the store whatever its channel), and the
startup introduction is skipped. -/
theorem c10_channel_filter_disabled :
    channel_id_of_env none = some 0 ∧
    channel_id_of_env (some "0") = some 0 ∧
    (∀ found cn ch ai, on_ready_intro 0 found cn ch ai = none) ∧
    (∀ cfg st m now r hook, cfg.channel_id = 0 →
      (on_message cfg st m now r hook).2 ≠ MsgOutcome.ignoredChannel) ∧
    (∀ cfg st m now r hook, cfg.channel_id = 0 →
      m.fromSelf = false →
      strStartsWith m.content cfg.commandMarker = false →
      st.in_cooldown = false →
      (on_message cfg st m now r hook).1.store.messages =
        st.store.messages ++
          [{ author := m.authorDisplayName, content := m.content,
             isBotReply := false }]) := by
  refine ⟨rfl, rfl, fun found cn ch ai => rfl, ?_, ?_⟩
  · intro cfg st m now r hook h
    simp only [on_message, h]
    repeat' split <;> simp_all
  · intro cfg st m now r hook h hself hcmd hcool
    simp only [on_message, h, hself, hcmd, hcool]
    simp only [ne_eq, not_true_eq_false, false_and, if_false,
      Bool.false_eq_true, if_neg, ite_false]
    repeat' split <;>
      simp_all [ConversationStore.add_message,
        ConversationStore.reset_conversation_turns]

/-- C10 witness: under the channel-0 configuration a message on channel 999
is recorded as a conversational turn. -/
theorem c10_witness :
    (on_message cfgZ initBotState msgZ 5 1 true).1.store.messages =
      initBotState.store.messages ++
        [{ author := "Bob", content := "yo", isBotReply := false }] :=
  c10_channel_filter_disabled.2.2.2.2 cfgZ initBotState msgZ 5 1 true
    rfl rfl (by decide) rfl
